import Mathlib

/-!
Verification development for the presence/liveness subsystem of a
multi-role cluster (Teleport): role presence registry, tunnel connection
store, remote cluster status engine, and session/party registry.

The repository sources available here are the interface declarations
(`lib/auth/presence.go`, `lib/auth/configuration.go`) and the test files
(`TestUpsertServer`, `TestRemoteClusterStatus`, `TestID`,
`TestSessionsCRUD`, `TestSessionsInactivity`, `TestPartiesCRUD`).  The
implementations behind those interfaces are not part of the source tree,
so each operation below is modelled from the specification
(spec.md sections 3, 4.1, 4.3, 4.4), as indicated in its doc comment.

Timestamps are modelled as `Nat` (the zero value models Go's zero time).
-/

/- ===================== Session IDs ===================== -/

/-- A session id is a fixed-format string token (`type ID string` in the
source's session package). -/
abbrev ID := String

/-- True when `c` is a lowercase hexadecimal digit. -/
def isHexDigit (c : Char) : Bool :=
  (('0' ≤ c) && (c ≤ '9')) || (('a' ≤ c) && (c ≤ 'f'))

/-- Consume exactly `n` hexadecimal digits from the front of `cs`,
returning the remainder, or `none` when the input is too short or a
character is not a hex digit. -/
def hexChunk : Nat → List Char → Option (List Char)
  | 0, cs => some cs
  | _ + 1, [] => none
  | n + 1, c :: cs => if isHexDigit c then hexChunk n cs else none

/-- Consume a single dash from the front of `cs`. -/
def expectDash : List Char → Option (List Char)
  | '-' :: cs => some cs
  | _ => none

/-- One token of the fixed id format: a run of hex digits or a dash. -/
inductive IDTok where
  | hex (n : Nat)
  | dash
deriving DecidableEq, Repr

/-- Run one format token against the input. -/
def runTok : IDTok → List Char → Option (List Char)
  | .hex n, cs => hexChunk n cs
  | .dash, cs => expectDash cs

/-- Run a sequence of format tokens against the input. -/
def runToks : List IDTok → List Char → Option (List Char)
  | [], cs => some cs
  | t :: ts, cs =>
    match runTok t cs with
    | none => none
    | some cs2 => runToks ts cs2

/-- The fixed session-id format: `8-4-4-4-12` lowercase hex groups
separated by dashes (36 characters total). -/
def idFormat : List IDTok :=
  [.hex 8, .dash, .hex 4, .dash, .hex 4, .dash, .hex 4, .dash, .hex 12]

/-- Modelled from the spec: `ID.Check` — id format is validated as a
fixed-length token with no embedded whitespace and no trailing
characters (the whole input must be consumed).  The implementation of
`Check` is not under `src/`; only `TestID` exercises it. -/
def IDCheck (s : ID) : Bool :=
  match runToks idFormat s.data with
  | some [] => true
  | _ => false

/-- Modelled from the spec: `ParseID` — parses a string into a session
id, failing on any string that does not validate. -/
def ParseID (s : String) : Option ID :=
  if IDCheck s then some s else none

/-- The string rendering of an id (`ID.String()` in the source). -/
def IDString (id : ID) : String := id

/-- Hex character for a digit `n < 16` (lowercase). -/
def toHexChar (n : Nat) : Char :=
  if n < 10 then Char.ofNat (48 + n) else Char.ofNat (87 + n)

/-- Big-endian fixed-width hex rendering of a natural number. -/
def natToHex : Nat → Nat → List Char
  | 0, _ => []
  | l + 1, n => natToHex l (n / 16) ++ [toHexChar (n % 16)]

/-- Modelled from the spec: `NewID` — generates a fresh fixed-format
session id; the randomness source is abstracted as a `Nat` seed whose
32 hex digits are formatted into the `8-4-4-4-12` group layout. -/
def NewID (seed : Nat) : ID :=
  let d := natToHex 32 seed
  ⟨d.take 8 ++ '-' :: ((d.drop 8).take 4 ++ '-' :: ((d.drop 12).take 4 ++
    '-' :: ((d.drop 16).take 4 ++ '-' :: d.drop 20)))⟩

/- ===================== Sessions and parties ===================== -/

/-- Terminal parameters of an interactive session (window width/height). -/
structure TerminalParams where
  w : Nat
  h : Nat
deriving DecidableEq, Repr

/-- A connected participant of a session.  Owned exclusively by its
parent session. -/
structure Party where
  id : ID
  remoteAddr : String
  user : String
  serverID : String
  lastActive : Nat
deriving DecidableEq, Repr

/-- An interactive session.  `ns` is the source's `Namespace` field
(`namespace` is reserved in Lean). -/
structure Session where
  id : ID
  ns : String
  login : String
  terminalParams : TerminalParams
  parties : List Party
  created : Nat
  lastActive : Nat
deriving DecidableEq, Repr

/-- Error taxonomy of the session registry (spec section 7). -/
inductive SessError where
  | notFound
  | badParameter
  | alreadyExists
deriving DecidableEq, Repr

/-- Modelled from the spec: `defaults.ActiveSessionTTL` — the inactivity
TTL after which a session behaves as absent.  The exact value is not in
the sources available here; only positivity matters for the properties
below. -/
def activeSessionTTL : Nat := 600

/-- A session is active when `now − lastActive ≤ ActiveSessionTTL`
(spec section 4.4 state machine). -/
def sessionActive (now : Nat) (s : Session) : Bool :=
  decide (now - s.lastActive ≤ activeSessionTTL)

/-- Membership predicate for a session keyed by (namespace, id). -/
def sessionKey (ns id : String) (s : Session) : Bool :=
  s.ns == ns && s.id == id

/-- Modelled from the spec: `GetSessions` — returns the active sessions
of a namespace; sessions whose computed state is `Expired` are excluded
even though the underlying record may still exist. -/
def GetSessions (now : Nat) (sessions : List Session) (ns : String) : List Session :=
  sessions.filter (fun s => s.ns == ns && sessionActive now s)

/-- Modelled from the spec: `GetSession` — validates the id format
first (fail fast with a validation error before any store access), then
looks the session up; an expired session is treated as not-found. -/
def GetSession (now : Nat) (sessions : List Session) (ns : String) (id : ID) :
    Except SessError Session :=
  if IDCheck id then
    match sessions.find? (sessionKey ns id) with
    | none => .error .notFound
    | some s => if sessionActive now s then .ok s else .error .notFound
  else .error .badParameter

/-- Modelled from the spec: `CreateSession` — rejects malformed ids and
duplicate ids, and initializes `created = lastActive = now`. -/
def CreateSession (now : Nat) (sessions : List Session) (s : Session) :
    Except SessError (List Session) :=
  if IDCheck s.id then
    if sessions.any (sessionKey s.ns s.id) then .error .alreadyExists
    else .ok (sessions ++ [{ s with created := now, lastActive := now }])
  else .error .badParameter

/-- An update request: the session id plus optional fields; `none`
means "field not supplied" (spec section 4.4 partial-update
semantics). -/
structure UpdateRequest where
  id : ID
  ns : String
  terminalParams : Option TerminalParams
  parties : Option (List Party)
deriving DecidableEq, Repr

/-- Apply the supplied fields of an update request to a stored session;
absent fields are left untouched. -/
def applyUpdate (s : Session) (r : UpdateRequest) : Session :=
  let s1 := match r.terminalParams with
    | none => s
    | some tp => { s with terminalParams := tp }
  match r.parties with
  | none => s1
  | some ps => { s1 with parties := ps }

/-- Modelled from the spec: `UpdateSession` — validates the id, requires
the session to exist and be active, and overwrites only the fields
present in the request. -/
def UpdateSession (now : Nat) (sessions : List Session) (r : UpdateRequest) :
    Except SessError (List Session) :=
  if IDCheck r.id then
    match sessions.find? (sessionKey r.ns r.id) with
    | none => .error .notFound
    | some s =>
      if sessionActive now s then
        .ok (sessions.map fun x =>
          if sessionKey r.ns r.id x then applyUpdate x r else x)
      else .error .notFound
  else .error .badParameter

/-- Modelled from the spec: `RemoveParty` — removes the party with the
given id from the session's party sequence and reports whether a party
with that id was present.  Does not itself persist. -/
def RemoveParty (s : Session) (partyID : ID) : Session × Bool :=
  ({ s with parties := s.parties.filter fun p => !(p.id == partyID) },
   s.parties.any fun p => p.id == partyID)

/-- Modelled from the spec: `DeleteSession` — explicit removal of a
session record. -/
def DeleteSession (sessions : List Session) (ns : String) (id : ID) :
    Except SessError (List Session) :=
  if IDCheck id then
    if sessions.any (sessionKey ns id) then
      .ok (sessions.filter fun s => !(sessionKey ns id s))
    else .error .notFound
  else .error .badParameter

/- ===================== Role presence registry ===================== -/

/-- A role-tagged server resource as submitted by an upsert request. -/
structure ServerResource where
  kind : String
  name : String
  ns : String
  spec : String
  version : Nat
deriving DecidableEq, Repr

/-- A stored presence entry, one per (namespace, kind, name). -/
structure PresenceEntry where
  ns : String
  kind : String
  name : String
  spec : String
  version : Nat
  expiry : Option Nat
deriving DecidableEq, Repr

/-- A keep-alive lease returned by an upsert performed with a positive
TTL. -/
structure KeepAliveLease where
  ns : String
  kind : String
  name : String
  expiry : Nat
deriving DecidableEq, Repr

/-- The resource kind a caller asserting a given role must submit
(spec section 4.1); unknown roles have no associated kind. -/
def kindForRole (role : String) : Option String :=
  if role = "node" then some "node"
  else if role = "proxy" then some "proxy"
  else if role = "auth" then some "auth"
  else if role = "kube-service" then some "kube-service"
  else if role = "app-server" then some "app-server"
  else if role = "db-server" then some "db-server"
  else none

/-- Membership predicate for a presence entry keyed by
(namespace, kind, name). -/
def entryKey (ns kind name : String) (e : PresenceEntry) : Bool :=
  e.ns == ns && e.kind == kind && e.name == name

/-- The stored entry produced by an upsert: the submitted resource with
an absolute expiry computed from `ttl` when `ttl > 0` (permanent entry
when `ttl = 0`). -/
def entryOf (res : ServerResource) (ttl now : Nat) : PresenceEntry :=
  { ns := res.ns, kind := res.kind, name := res.name, spec := res.spec,
    version := res.version,
    expiry := if 0 < ttl then some (now + ttl) else none }

/-- An entry is alive when it has no expiry or the expiry lies strictly
in the future (the backend makes expired keys behave as deleted). -/
def entryAlive (now : Nat) (e : PresenceEntry) : Bool :=
  match e.expiry with
  | none => true
  | some t => decide (now < t)

/-- Modelled from the spec: `UpsertRole` — validates that the submitted
resource's declared kind matches the caller's asserted role, failing
with a validation error otherwise; on success fully replaces any prior
entry with the same (namespace, kind, name) and returns a keep-alive
lease when `ttl > 0`. -/
def UpsertRole (st : List PresenceEntry) (role : String) (res : ServerResource)
    (ttl now : Nat) : Except String (List PresenceEntry × Option KeepAliveLease) :=
  match kindForRole role with
  | none => .error "role does not match submitted resource kind"
  | some k =>
    if res.kind = k then
      .ok (entryOf res ttl now :: st.filter (fun x => !(entryKey res.ns res.kind res.name x)),
        if 0 < ttl then some ⟨res.ns, res.kind, res.name, now + ttl⟩ else none)
    else .error "role does not match submitted resource kind"

/-- Modelled from the spec: `GetByKind` — returns all non-expired
entries of a kind within a namespace. -/
def GetByKind (st : List PresenceEntry) (kind ns : String) (now : Nat) :
    List PresenceEntry :=
  st.filter (fun e => e.kind == kind && e.ns == ns && entryAlive now e)

/- ============ Tunnel connections and remote clusters ============ -/

/-- A reverse-tunnel heartbeat record, keyed by its own name. -/
structure TunnelConnection where
  name : String
  clusterName : String
  proxyName : String
  lastHeartbeat : Nat
  tunnelType : String
deriving DecidableEq, Repr

/-- Derived connectivity state of a remote cluster. -/
inductive ConnectionStatus where
  | online
  | offline
deriving DecidableEq, Repr

/-- A remote cluster record: stored name plus the derived-on-read
status and last-heartbeat watermark. -/
structure RemoteCluster where
  name : String
  connectionStatus : ConnectionStatus
  lastHeartbeat : Nat
deriving DecidableEq, Repr

/-- The presence state relevant to the remote cluster status engine:
the stored remote cluster records and the tunnel connection store. -/
structure PresenceState where
  remoteClusters : List RemoteCluster
  tunnels : List TunnelConnection
deriving DecidableEq, Repr

/-- All currently existing tunnel connections whose `clusterName`
matches the given cluster. -/
def tunnelsForCluster (conns : List TunnelConnection) (clusterName : String) :
    List TunnelConnection :=
  conns.filter (fun c => c.clusterName == clusterName)

/-- Maximum `lastHeartbeat` over a set of tunnel connections, or the
zero value when the set is empty (spec section 4.3 step 2). -/
def candidateMax (conns : List TunnelConnection) : Nat :=
  (conns.map (fun c => c.lastHeartbeat)).foldr max 0

/-- Modelled from the spec: the Remote Cluster Status Engine refresh
(spec section 4.3 steps 1–4): the new watermark is
`max(storedWatermark, candidateMax)` and the status is Online exactly
when the cluster currently has tunnel connections. -/
def refreshRemoteCluster (rc : RemoteCluster) (conns : List TunnelConnection) :
    RemoteCluster :=
  let cs := tunnelsForCluster conns rc.name
  { rc with
    lastHeartbeat := max rc.lastHeartbeat (candidateMax cs),
    connectionStatus := if cs.isEmpty then .offline else .online }

/-- Modelled from the spec: `UpsertTunnelConnection` — overwrite on the
same connection name. -/
def UpsertTunnelConnection (st : PresenceState) (tc : TunnelConnection) :
    PresenceState :=
  { st with tunnels := tc :: st.tunnels.filter (fun c => !(c.name == tc.name)) }

/-- Modelled from the spec: `DeleteTunnelConnection` — deletes the
tunnel connection with the given cluster and connection name. -/
def DeleteTunnelConnection (st : PresenceState) (clusterName connName : String) :
    PresenceState :=
  { st with tunnels :=
      st.tunnels.filter (fun c => !(c.clusterName == clusterName && c.name == connName)) }

/-- Modelled from the spec: `CreateRemoteCluster` — creates a remote
cluster record with Offline status and a zero watermark. -/
def CreateRemoteCluster (st : PresenceState) (name : String) :
    Except String PresenceState :=
  if st.remoteClusters.any (fun rc => rc.name == name) then .error "already exists"
  else .ok { st with remoteClusters :=
    st.remoteClusters ++ [{ name := name, connectionStatus := .offline, lastHeartbeat := 0 }] }

/-- Modelled from the spec: `GetRemoteCluster` — looks up the stored
record, refreshes the derived fields from the tunnel connection store
(spec section 4.3), and persists the refreshed record back. -/
def GetRemoteCluster (st : PresenceState) (name : String) :
    Option (RemoteCluster × PresenceState) :=
  match st.remoteClusters.find? (fun rc => rc.name == name) with
  | none => none
  | some rc =>
    let rc2 := refreshRemoteCluster rc st.tunnels
    some (rc2, { st with remoteClusters :=
      st.remoteClusters.map (fun x => if x.name == name then rc2 else x) })

/- ============== Concrete demonstration data ============== -/

/-- A well-formed session id used in concrete instantiations. -/
def demoID : ID := "00000000-0000-0000-0000-000000000000"

/-- A concrete session mirroring the one built in `TestSessionsCRUD`. -/
def demoSession : Session := ⟨demoID, "default", "bob", ⟨100, 100⟩, [], 0, 0⟩

/-- A concrete party mirroring `TestPartiesCRUD`. -/
def demoParty1 : Party := ⟨"party-1", "1_remote_addr", "first", "luna", 0⟩

/-- A second concrete party mirroring `TestPartiesCRUD`. -/
def demoParty2 : Party := ⟨"party-2", "2_remote_addr", "second", "luna", 0⟩

/-- The demo session carrying both demo parties. -/
def demoSessionP12 : Session := { demoSession with parties := [demoParty1, demoParty2] }

/-- The demo session carrying only the first demo party. -/
def demoSessionP1 : Session := { demoSession with parties := [demoParty1] }

/-- An update request supplying only terminal parameters. -/
def demoReqTP : UpdateRequest := ⟨demoID, "default", some ⟨101, 101⟩, none⟩

/-- An update request supplying no optional fields. -/
def demoReqNone : UpdateRequest := ⟨demoID, "default", none, none⟩

/-- An update request supplying both demo parties. -/
def demoReqP12 : UpdateRequest := ⟨demoID, "default", none, some [demoParty1, demoParty2]⟩

/-- An update request supplying only the first demo party. -/
def demoReqP1 : UpdateRequest := ⟨demoID, "default", none, some [demoParty1]⟩

/-- A concrete server resource mirroring `TestUpsertServer`. -/
def demoResource : ServerResource := ⟨"node", "test-server", "default", "spec", 1⟩

/-- A concrete tunnel connection mirroring `TestRemoteClusterStatus`. -/
def demoTunnel1 : TunnelConnection := ⟨"conn-1", "rc", "proxy-1", 1, "proxy"⟩

/-- A second concrete tunnel connection with a later heartbeat. -/
def demoTunnel2 : TunnelConnection := ⟨"conn-2", "rc", "proxy-2", 2, "proxy"⟩

/-- A freshly created remote cluster record. -/
def demoRC0 : RemoteCluster := ⟨"rc", .offline, 0⟩

/-- The demo remote cluster after refreshing against both tunnels. -/
def demoRC1 : RemoteCluster := ⟨"rc", .online, 2⟩

/-- Presence state holding the fresh cluster and both tunnels. -/
def demoPresence : PresenceState := ⟨[demoRC0], [demoTunnel1, demoTunnel2]⟩

/-- Presence state after one read refreshed the cluster record. -/
def demoPresence1 : PresenceState := ⟨[demoRC1], [demoTunnel1, demoTunnel2]⟩

/- ===================== ID lemmas ===================== -/

theorem toHexChar_hex (m : Nat) (h : m < 16) : isHexDigit (toHexChar m) = true := by
  interval_cases m <;> decide

theorem natToHex_length (l n : Nat) : (natToHex l n).length = l := by
  induction l generalizing n with
  | zero => rfl
  | succ k ih => simp [natToHex, ih]

theorem natToHex_hex (l n : Nat) : ∀ c ∈ natToHex l n, isHexDigit c = true := by
  induction l generalizing n with
  | zero => intro c hc; simp [natToHex] at hc
  | succ k ih =>
    intro c hc
    simp only [natToHex, List.mem_append, List.mem_singleton] at hc
    rcases hc with hc | hc
    · exact ih _ c hc
    · subst hc; exact toHexChar_hex _ (Nat.mod_lt _ (by omega))

theorem hexChunk_append (g rest : List Char) (hhex : ∀ c ∈ g, isHexDigit c = true) :
    hexChunk g.length (g ++ rest) = some rest := by
  induction g with
  | nil => rfl
  | cons c t ih =>
    simp only [List.length_cons, List.cons_append, hexChunk,
      hhex c (List.mem_cons_self c t), if_true]
    exact ih (fun x hx => hhex x (List.mem_cons_of_mem c hx))

theorem hexChunk_some_append (n : Nat) (cs rest ex : List Char)
    (h : hexChunk n cs = some rest) : hexChunk n (cs ++ ex) = some (rest ++ ex) := by
  induction n generalizing cs rest with
  | zero => simp [hexChunk] at h ⊢; simp [h]
  | succ k ih =>
    cases cs with
    | nil => simp [hexChunk] at h
    | cons c t =>
      simp only [hexChunk] at h ⊢
      by_cases hc : isHexDigit c = true
      · simp only [hc, if_true] at h ⊢
        exact ih t rest h
      · simp [hc] at h

theorem expectDash_eq (cs rest : List Char) (h : expectDash cs = some rest) :
    cs = '-' :: rest := by
  unfold expectDash at h
  split at h
  · simp only [Option.some.injEq] at h
    simp [h]
  · exact absurd h (by simp)

theorem expectDash_some_append (cs rest ex : List Char)
    (h : expectDash cs = some rest) : expectDash (cs ++ ex) = some (rest ++ ex) := by
  rw [expectDash_eq cs rest h]
  rfl

theorem runToks_some_append (ts : List IDTok) (cs rest ex : List Char)
    (h : runToks ts cs = some rest) : runToks ts (cs ++ ex) = some (rest ++ ex) := by
  induction ts generalizing cs rest with
  | nil => simp [runToks] at h ⊢; simp [h]
  | cons t ts ih =>
    simp only [runToks] at h ⊢
    cases htok : runTok t cs with
    | none => simp [htok] at h
    | some cs2 =>
      have h2 : runTok t (cs ++ ex) = some (cs2 ++ ex) := by
        cases t with
        | hex n => exact hexChunk_some_append n cs cs2 ex htok
        | dash => exact expectDash_some_append cs cs2 ex htok
      simp only [h2]
      simp only [htok] at h
      exact ih cs2 rest h

theorem expectDash_cons (cs : List Char) : expectDash ('-' :: cs) = some cs := rfl

theorem hexChunk_chunk (n : Nat) (g rest : List Char) (hlen : g.length = n)
    (hhex : ∀ c ∈ g, isHexDigit c = true) : hexChunk n (g ++ rest) = some rest := by
  have h := hexChunk_append g rest hhex
  rwa [hlen] at h

theorem hexChunk_exact (n : Nat) (g : List Char) (hlen : g.length = n)
    (hhex : ∀ c ∈ g, isHexDigit c = true) : hexChunk n g = some [] := by
  have h := hexChunk_append g [] hhex
  rwa [hlen, List.append_nil] at h

theorem IDCheck_iff (s : String) :
    IDCheck s = true ↔ runToks idFormat s.data = some [] := by
  unfold IDCheck
  cases h : runToks idFormat s.data with
  | none => simp
  | some rest =>
    cases rest with
    | nil => simp
    | cons a t => simp

theorem runToks_idFormat_build (g1 g2 g3 g4 g5 : List Char)
    (l1 : g1.length = 8) (l2 : g2.length = 4) (l3 : g3.length = 4)
    (l4 : g4.length = 4) (l5 : g5.length = 12)
    (h1 : ∀ c ∈ g1, isHexDigit c = true) (h2 : ∀ c ∈ g2, isHexDigit c = true)
    (h3 : ∀ c ∈ g3, isHexDigit c = true) (h4 : ∀ c ∈ g4, isHexDigit c = true)
    (h5 : ∀ c ∈ g5, isHexDigit c = true) :
    runToks idFormat
      (g1 ++ '-' :: (g2 ++ '-' :: (g3 ++ '-' :: (g4 ++ '-' :: g5)))) = some [] := by
  have e1 : hexChunk 8 (g1 ++ '-' :: (g2 ++ '-' :: (g3 ++ '-' :: (g4 ++ '-' :: g5))))
      = some ('-' :: (g2 ++ '-' :: (g3 ++ '-' :: (g4 ++ '-' :: g5)))) :=
    hexChunk_chunk 8 g1 _ l1 h1
  have e2 : hexChunk 4 (g2 ++ '-' :: (g3 ++ '-' :: (g4 ++ '-' :: g5)))
      = some ('-' :: (g3 ++ '-' :: (g4 ++ '-' :: g5))) :=
    hexChunk_chunk 4 g2 _ l2 h2
  have e3 : hexChunk 4 (g3 ++ '-' :: (g4 ++ '-' :: g5))
      = some ('-' :: (g4 ++ '-' :: g5)) :=
    hexChunk_chunk 4 g3 _ l3 h3
  have e4 : hexChunk 4 (g4 ++ '-' :: g5) = some ('-' :: g5) :=
    hexChunk_chunk 4 g4 _ l4 h4
  have e5 : hexChunk 12 g5 = some [] := hexChunk_exact 12 g5 l5 h5
  simp only [idFormat, runToks, runTok, e1, e2, e3, e4, e5, expectDash_cons]

theorem NewID_data (seed : Nat) :
    (NewID seed).data
      = (natToHex 32 seed).take 8 ++ '-' :: (((natToHex 32 seed).drop 8).take 4
        ++ '-' :: (((natToHex 32 seed).drop 12).take 4
        ++ '-' :: (((natToHex 32 seed).drop 16).take 4
        ++ '-' :: (natToHex 32 seed).drop 20))) := rfl

theorem NewID_check (seed : Nat) : IDCheck (NewID seed) = true := by
  rw [IDCheck_iff, NewID_data]
  apply runToks_idFormat_build
  · simp [List.length_take, natToHex_length]
  · simp [List.length_take, List.length_drop, natToHex_length]
  · simp [List.length_take, List.length_drop, natToHex_length]
  · simp [List.length_take, List.length_drop, natToHex_length]
  · simp [List.length_drop, natToHex_length]
  · exact fun c hc => natToHex_hex 32 seed c (List.take_subset _ _ hc)
  · exact fun c hc =>
      natToHex_hex 32 seed c (List.drop_subset _ _ (List.take_subset _ _ hc))
  · exact fun c hc =>
      natToHex_hex 32 seed c (List.drop_subset _ _ (List.take_subset _ _ hc))
  · exact fun c hc =>
      natToHex_hex 32 seed c (List.drop_subset _ _ (List.take_subset _ _ hc))
  · exact fun c hc => natToHex_hex 32 seed c (List.drop_subset _ _ hc)

/- ===================== Shared helper lemmas ===================== -/

theorem find?_map_of_pres {α : Type} (p : α → Bool) (f : α → α) (l : List α)
    (hp : ∀ x, p (f x) = p x) : (l.map f).find? p = (l.find? p).map f := by
  induction l with
  | nil => rfl
  | cons a t ih =>
    cases ha : p a with
    | true => simp [List.find?_cons, hp a, ha]
    | false => simp [List.find?_cons, hp a, ha, ih]

theorem le_candidateMax (conns : List TunnelConnection) (c : TunnelConnection)
    (hc : c ∈ conns) : c.lastHeartbeat ≤ candidateMax conns := by
  induction conns with
  | nil => cases hc
  | cons a t ih =>
    simp only [candidateMax, List.map_cons, List.foldr_cons]
    rcases List.mem_cons.mp hc with h | h
    · subst h; exact Nat.le_max_left _ _
    · exact le_trans (ih h) (Nat.le_max_right _ _)

theorem candidateMax_le (conns : List TunnelConnection) (w : Nat)
    (h : ∀ c ∈ conns, c.lastHeartbeat ≤ w) : candidateMax conns ≤ w := by
  induction conns with
  | nil => exact Nat.zero_le w
  | cons a t ih =>
    simp only [candidateMax, List.map_cons, List.foldr_cons]
    exact max_le (h a (List.mem_cons_self a t))
      (ih fun c hc => h c (List.mem_cons_of_mem a hc))

theorem applyUpdate_id (s : Session) (r : UpdateRequest) :
    (applyUpdate s r).id = s.id := by
  unfold applyUpdate
  cases r.terminalParams <;> cases r.parties <;> rfl

theorem applyUpdate_ns (s : Session) (r : UpdateRequest) :
    (applyUpdate s r).ns = s.ns := by
  unfold applyUpdate
  cases r.terminalParams <;> cases r.parties <;> rfl

theorem applyUpdate_login (s : Session) (r : UpdateRequest) :
    (applyUpdate s r).login = s.login := by
  unfold applyUpdate
  cases r.terminalParams <;> cases r.parties <;> rfl

theorem applyUpdate_created (s : Session) (r : UpdateRequest) :
    (applyUpdate s r).created = s.created := by
  unfold applyUpdate
  cases r.terminalParams <;> cases r.parties <;> rfl

theorem applyUpdate_lastActive (s : Session) (r : UpdateRequest) :
    (applyUpdate s r).lastActive = s.lastActive := by
  unfold applyUpdate
  cases r.terminalParams <;> cases r.parties <;> rfl

theorem applyUpdate_parties_none (s : Session) (r : UpdateRequest)
    (h : r.parties = none) : (applyUpdate s r).parties = s.parties := by
  unfold applyUpdate
  rw [h]
  cases r.terminalParams <;> rfl

theorem applyUpdate_parties_some (s : Session) (r : UpdateRequest) (ps : List Party)
    (h : r.parties = some ps) : (applyUpdate s r).parties = ps := by
  unfold applyUpdate
  rw [h]

theorem applyUpdate_tp_some (s : Session) (r : UpdateRequest) (tp : TerminalParams)
    (h : r.terminalParams = some tp) : (applyUpdate s r).terminalParams = tp := by
  unfold applyUpdate
  rw [h]
  cases r.parties <;> rfl

theorem applyUpdate_none_none (s : Session) (r : UpdateRequest)
    (htp : r.terminalParams = none) (hps : r.parties = none) :
    applyUpdate s r = s := by
  unfold applyUpdate
  rw [htp, hps]

theorem sessionKey_applyUpdate (ns id : String) (r : UpdateRequest) (x : Session) :
    sessionKey ns id (applyUpdate x r) = sessionKey ns id x := by
  unfold sessionKey
  rw [applyUpdate_ns, applyUpdate_id]

theorem updateSession_ok_elim (now : Nat) (sessions out : List Session)
    (r : UpdateRequest) (h : UpdateSession now sessions r = .ok out) :
    IDCheck r.id = true ∧
      ∃ s0, sessions.find? (sessionKey r.ns r.id) = some s0 ∧
        sessionActive now s0 = true ∧
        out = sessions.map (fun x =>
          if sessionKey r.ns r.id x then applyUpdate x r else x) := by
  unfold UpdateSession at h
  split at h
  next hid =>
    split at h
    next hfind => exact absurd h (by simp)
    next s0 hfind =>
      split at h
      next hact =>
        refine ⟨hid, s0, hfind, hact, ?_⟩
        injection h with h2
        exact h2.symm
      next hact => exact absurd h (by simp)
  next hid => exact absurd h (by simp)

theorem updateSession_find (now : Nat) (sessions out : List Session)
    (r : UpdateRequest) (h : UpdateSession now sessions r = .ok out) :
    ∃ s0, sessions.find? (sessionKey r.ns r.id) = some s0 ∧
      sessionActive now s0 = true ∧
      out.find? (sessionKey r.ns r.id) = some (applyUpdate s0 r) := by
  obtain ⟨-, s0, hfind, hact, hout⟩ := updateSession_ok_elim now sessions out r h
  refine ⟨s0, hfind, hact, ?_⟩
  have hp : ∀ x, sessionKey r.ns r.id
      (if sessionKey r.ns r.id x then applyUpdate x r else x)
      = sessionKey r.ns r.id x := by
    intro x
    by_cases hx : sessionKey r.ns r.id x = true
    · rw [if_pos hx, sessionKey_applyUpdate, hx]
    · rw [if_neg hx]
  rw [hout, find?_map_of_pres _ _ _ hp, hfind]
  simp [List.find?_some hfind]

theorem getSession_ok_elim (now : Nat) (sessions : List Session) (ns : String)
    (id : ID) (c : Session) (h : GetSession now sessions ns id = .ok c) :
    sessions.find? (sessionKey ns id) = some c ∧ sessionActive now c = true := by
  unfold GetSession at h
  split at h
  next hid =>
    split at h
    next hfind => exact absurd h (by simp)
    next s0 hfind =>
      split at h
      next hact =>
        injection h with h2
        subst h2
        exact ⟨hfind, hact⟩
      next hact => exact absurd h (by simp)
  next hid => exact absurd h (by simp)

/- ===================== Claim theorems ===================== -/

/-- C7: session id validation rejects the empty string, an
all-whitespace string, and a valid id with extra trailing characters
appended; for every malformed id, `GetSession` fails with a validation
error independently of the stored sessions (before any store access). -/
theorem idCheck_rejects_malformed :
    IDCheck "" = false ∧ IDCheck "   " = false ∧
    (∀ (id extra : String), IDCheck id = true → extra ≠ "" →
      IDCheck (id ++ extra) = false) ∧
    (∀ (now : Nat) (sessions : List Session) (ns : String) (id : ID),
      IDCheck id = false →
      GetSession now sessions ns id = .error .badParameter) := by
  refine ⟨by decide, by decide, ?_, ?_⟩
  · intro id extra hid hex
    have hrun : runToks idFormat id.data = some [] := (IDCheck_iff id).mp hid
    have h2 : runToks idFormat (id.data ++ extra.data) = some ([] ++ extra.data) :=
      runToks_some_append _ _ _ _ hrun
    rw [List.nil_append] at h2
    have hne : extra.data ≠ [] := by
      intro hc
      apply hex
      cases extra with
      | mk l =>
        simp only [] at hc
        simp [hc]
    cases hcheck : IDCheck (id ++ extra) with
    | false => rfl
    | true =>
      have h3 := (IDCheck_iff _).mp hcheck
      have hdata : (id ++ extra).data = id.data ++ extra.data := rfl
      rw [hdata, h2] at h3
      exact absurd (Option.some.inj h3) hne
  · intro now sessions ns id hid
    unfold GetSession
    rw [hid]
    simp

/-- C10: every id produced by `NewID` passes the `Check` validation, and
`ParseID` applied to its `String` rendering succeeds and yields an id
equal to the original. -/
theorem newID_roundtrip (seed : Nat) :
    IDCheck (NewID seed) = true ∧
    ParseID (IDString (NewID seed)) = some (NewID seed) := by
  refine ⟨NewID_check seed, ?_⟩
  unfold ParseID IDString
  rw [NewID_check seed]
  simp

/-- C5: once the clock has advanced so that `now − lastActive` exceeds
`ActiveSessionTTL`, `GetSession` returns a not-found error and
`GetSessions` excludes the session, even though the underlying record
still exists in the store. -/
theorem session_inactivity_expires (now : Nat) (sessions : List Session)
    (ns : String) (s : Session)
    (hid : IDCheck s.id = true)
    (_hmem : s ∈ sessions)
    (hfind : sessions.find? (sessionKey ns s.id) = some s)
    (hexp : activeSessionTTL < now - s.lastActive) :
    GetSession now sessions ns s.id = .error .notFound ∧
    s ∉ GetSessions now sessions ns := by
  have hact : sessionActive now s = false := by
    unfold sessionActive
    simp [Nat.not_le.mpr hexp]
  constructor
  · unfold GetSession
    rw [hid]
    simp only [if_true]
    rw [hfind]
    simp [hact]
  · intro hc
    unfold GetSessions at hc
    rw [List.mem_filter] at hc
    simp [hact] at hc

/-- C6: `UpdateSession` overwrites only the fields present in the
request: an update supplying only `TerminalParams` changes only the
terminal parameters and leaves the parties list and every other field
unchanged, and an update supplying no optional fields leaves the stored
sessions unchanged. -/
theorem updateSession_partial_frame :
    (∀ (s : Session) (r : UpdateRequest) (tp : TerminalParams),
       r.terminalParams = some tp → r.parties = none →
       (applyUpdate s r).terminalParams = tp ∧
       (applyUpdate s r).parties = s.parties ∧
       (applyUpdate s r).id = s.id ∧ (applyUpdate s r).ns = s.ns ∧
       (applyUpdate s r).login = s.login ∧
       (applyUpdate s r).created = s.created ∧
       (applyUpdate s r).lastActive = s.lastActive) ∧
    (∀ (now : Nat) (sessions out : List Session) (r : UpdateRequest),
       r.terminalParams = none → r.parties = none →
       UpdateSession now sessions r = .ok out → out = sessions) := by
  constructor
  · intro s r tp htp hps
    exact ⟨applyUpdate_tp_some s r tp htp, applyUpdate_parties_none s r hps,
      applyUpdate_id s r, applyUpdate_ns s r, applyUpdate_login s r,
      applyUpdate_created s r, applyUpdate_lastActive s r⟩
  · intro now sessions out r htp hps h
    obtain ⟨-, s0, -, -, hout⟩ := updateSession_ok_elim now sessions out r h
    rw [hout]
    have hfun : ∀ x ∈ sessions,
        (if sessionKey r.ns r.id x then applyUpdate x r else x) = x := by
      intro x _
      by_cases hk : sessionKey r.ns r.id x = true
      · rw [if_pos hk, applyUpdate_none_none x r htp hps]
      · rw [if_neg hk]
    rw [List.map_congr_left hfun]
    simp

/-- C8: create/get round-trip — a session created from the empty store
with `created = lastActive = now` is returned field-for-field equal by
`GetSession`, and `GetSessions` returns exactly that session. -/
theorem createSession_roundtrip (now : Nat) (s : Session) (out : List Session)
    (hid : IDCheck s.id = true) (hc : s.created = now) (hl : s.lastActive = now)
    (h : CreateSession now [] s = .ok out) :
    GetSession now out s.ns s.id = .ok s ∧ GetSessions now out s.ns = [s] := by
  have hout : out = [{ s with created := now, lastActive := now }] := by
    unfold CreateSession at h
    rw [hid] at h
    simp at h
    exact h.symm
  have hs : ({ s with created := now, lastActive := now } : Session) = s := by
    cases s with
    | mk i n lg tp ps cr la =>
      simp only [] at hc hl
      rw [hc, hl]
  rw [hout, hs]
  have hkey : sessionKey s.ns s.id s = true := by simp [sessionKey]
  have hact : sessionActive now s = true := by
    unfold sessionActive
    rw [hl]
    simp
  constructor
  · unfold GetSession
    rw [hid]
    simp [List.find?, hkey, hact]
  · unfold GetSessions
    simp [sessionKey, hact]

/-- C9: `RemoveParty` removes the party with the given id from the
session's party sequence and returns true exactly when a party with
that id was present; after adding two parties via `UpdateSession` and
removing one by id via `RemoveParty` followed by `UpdateSession` with
the mutated list, exactly the other party remains, identified by its
original id. -/
theorem removeParty_lifecycle :
    (∀ (s : Session) (pid : ID),
       ((RemoveParty s pid).2 = true ↔ ∃ p ∈ s.parties, p.id = pid)) ∧
    (∀ (s : Session) (pid : ID) (p : Party),
       (p ∈ (RemoveParty s pid).1.parties ↔ p ∈ s.parties ∧ p.id ≠ pid)) ∧
    (∀ (now : Nat) (sessions st1 st2 : List Session) (r1 r2 : UpdateRequest)
       (c1 c3 : Session) (p1 p2 : Party),
       p1.id ≠ p2.id →
       r1.parties = some [p1, p2] →
       r2.ns = r1.ns → r2.id = r1.id →
       r2.parties = some (RemoveParty c1 p2.id).1.parties →
       UpdateSession now sessions r1 = .ok st1 →
       GetSession now st1 r1.ns r1.id = .ok c1 →
       UpdateSession now st1 r2 = .ok st2 →
       GetSession now st2 r1.ns r1.id = .ok c3 →
       (RemoveParty c1 p2.id).2 = true ∧ c3.parties = [p1]) := by
  refine ⟨?_, ?_, ?_⟩
  · intro s pid
    unfold RemoveParty
    simp [List.any_eq_true]
  · intro s pid p
    unfold RemoveParty
    simp [List.mem_filter]
  · intro now sessions st1 st2 r1 r2 c1 c3 p1 p2 hne hr1p hr2ns hr2id hr2p hu1 hg1 hu2 hg2
    obtain ⟨s0, hfind0, hact0, hfind1⟩ := updateSession_find now sessions st1 r1 hu1
    obtain ⟨hfindc1, hactc1⟩ := getSession_ok_elim now st1 r1.ns r1.id c1 hg1
    rw [hfind1] at hfindc1
    have hc1 : c1 = applyUpdate s0 r1 := (Option.some.inj hfindc1).symm
    have hc1parties : c1.parties = [p1, p2] := by
      rw [hc1]
      exact applyUpdate_parties_some s0 r1 [p1, p2] hr1p
    have hflag : (RemoveParty c1 p2.id).2 = true := by
      unfold RemoveParty
      rw [hc1parties]
      simp
    have hremoved : (RemoveParty c1 p2.id).1.parties = [p1] := by
      unfold RemoveParty
      rw [hc1parties]
      have hbeq : (p1.id == p2.id) = false := by simp [hne]
      simp [List.filter, hbeq]
    refine ⟨hflag, ?_⟩
    obtain ⟨s1, _hfinds1, _hacts1, hfind2⟩ := updateSession_find now st1 st2 r2 hu2
    obtain ⟨hfindc3, hactc3⟩ := getSession_ok_elim now st2 r1.ns r1.id c3 hg2
    rw [hr2ns, hr2id] at hfind2
    rw [hfind2] at hfindc3
    have hc3 : c3 = applyUpdate s1 r2 := (Option.some.inj hfindc3).symm
    rw [hc3]
    rw [applyUpdate_parties_some s1 r2 _ hr2p]
    exact hremoved

theorem refreshRemoteCluster_name (rc : RemoteCluster) (conns : List TunnelConnection) :
    (refreshRemoteCluster rc conns).name = rc.name := rfl

theorem refreshRemoteCluster_lastHeartbeat (rc : RemoteCluster)
    (conns : List TunnelConnection) :
    (refreshRemoteCluster rc conns).lastHeartbeat
      = max rc.lastHeartbeat (candidateMax (tunnelsForCluster conns rc.name)) := rfl

theorem getRemoteCluster_ok_elim (st : PresenceState) (name : String)
    (rc0 rc1 : RemoteCluster) (st1 : PresenceState)
    (hfind : st.remoteClusters.find? (fun rc => rc.name == name) = some rc0)
    (hget : GetRemoteCluster st name = some (rc1, st1)) :
    rc1 = refreshRemoteCluster rc0 st.tunnels ∧
      st1 = { st with remoteClusters := (st.remoteClusters.map
        (fun x => if x.name == name then refreshRemoteCluster rc0 st.tunnels else x)) } := by
  unfold GetRemoteCluster at hget
  rw [hfind] at hget
  simp only [Option.some.injEq, Prod.mk.injEq] at hget
  exact ⟨hget.1.symm, hget.2.symm⟩

/-- C1: on every read the remote cluster's new watermark equals
`max(storedWatermark, candidateMax)` over the cluster's currently
existing tunnel connections, hence it never decreases, and a read after
deleting any tunnel connection (in particular the one that produced the
maximum) leaves the watermark unchanged. -/
theorem remoteCluster_watermark_monotone (st : PresenceState) (name : String)
    (rc0 rc1 : RemoteCluster) (st1 : PresenceState)
    (hfind : st.remoteClusters.find? (fun rc => rc.name == name) = some rc0)
    (hget : GetRemoteCluster st name = some (rc1, st1)) :
    rc1.lastHeartbeat
        = max rc0.lastHeartbeat (candidateMax (tunnelsForCluster st.tunnels name))
      ∧ rc0.lastHeartbeat ≤ rc1.lastHeartbeat
      ∧ (∀ (cl n : String) (rc2 : RemoteCluster) (st2 : PresenceState),
          GetRemoteCluster (DeleteTunnelConnection st1 cl n) name = some (rc2, st2) →
          rc2.lastHeartbeat = rc1.lastHeartbeat) := by
  have hname : rc0.name = name := by
    have h := List.find?_some hfind
    simpa using h
  obtain ⟨hrc1, hst1⟩ := getRemoteCluster_ok_elim st name rc0 rc1 st1 hfind hget
  have hwm : rc1.lastHeartbeat
      = max rc0.lastHeartbeat (candidateMax (tunnelsForCluster st.tunnels name)) := by
    rw [hrc1, refreshRemoteCluster_lastHeartbeat, hname]
  refine ⟨hwm, by rw [hwm]; exact Nat.le_max_left _ _, ?_⟩
  intro cl n rc2 st2 hget2
  -- the refreshed record still satisfies the lookup predicate
  have hp : ∀ x : RemoteCluster,
      ((if x.name == name then refreshRemoteCluster rc0 st.tunnels else x).name == name)
        = (x.name == name) := by
    intro x
    by_cases hx : (x.name == name) = true
    · rw [if_pos hx, hx, refreshRemoteCluster_name, hname]
      simp
    · rw [if_neg hx]
  have hfind1 : st1.remoteClusters.find? (fun rc => rc.name == name) = some rc1 := by
    rw [hst1]
    rw [find?_map_of_pres _ _ _ hp, hfind]
    simp only [Option.map_some']
    rw [if_pos (List.find?_some hfind), hrc1]
  have hdel_rcs : (DeleteTunnelConnection st1 cl n).remoteClusters
      = st1.remoteClusters := rfl
  have hdel_tunnels : (DeleteTunnelConnection st1 cl n).tunnels
      = st1.tunnels.filter (fun c => !(c.clusterName == cl && c.name == n)) := rfl
  have hst1_tunnels : st1.tunnels = st.tunnels := by rw [hst1]
  have hfind1' : (DeleteTunnelConnection st1 cl n).remoteClusters.find?
      (fun rc => rc.name == name) = some rc1 := by
    rw [hdel_rcs, hfind1]
  obtain ⟨hrc2, -⟩ := getRemoteCluster_ok_elim (DeleteTunnelConnection st1 cl n)
    name rc1 rc2 st2 hfind1' hget2
  have hrc1name : rc1.name = name := by
    rw [hrc1, refreshRemoteCluster_name, hname]
  have hrc2wm : rc2.lastHeartbeat = max rc1.lastHeartbeat
      (candidateMax (tunnelsForCluster (DeleteTunnelConnection st1 cl n).tunnels name)) := by
    rw [hrc2, refreshRemoteCluster_lastHeartbeat, hrc1name]
  have hcand : candidateMax
      (tunnelsForCluster (DeleteTunnelConnection st1 cl n).tunnels name)
        ≤ rc1.lastHeartbeat := by
    apply candidateMax_le
    intro c hc
    rw [hdel_tunnels, hst1_tunnels] at hc
    unfold tunnelsForCluster at hc
    rw [List.mem_filter] at hc
    obtain ⟨hcmem, hccl⟩ := hc
    rw [List.mem_filter] at hcmem
    have hcin : c ∈ tunnelsForCluster st.tunnels name := by
      unfold tunnelsForCluster
      rw [List.mem_filter]
      exact ⟨hcmem.1, hccl⟩
    calc c.lastHeartbeat ≤ candidateMax (tunnelsForCluster st.tunnels name) :=
          le_candidateMax _ c hcin
      _ ≤ rc1.lastHeartbeat := by rw [hwm]; exact Nat.le_max_right _ _
  rw [hrc2wm]
  exact Nat.max_eq_left hcand

/-- C2: `GetRemoteCluster` reports status Online exactly when the set of
currently existing tunnel connections for that cluster is non-empty,
independently of the watermark; with zero tunnel connections the status
is Offline and the watermark keeps its stored value (the zero value for
a freshly created cluster). -/
theorem remoteCluster_status_iff (st : PresenceState) (name : String)
    (rc0 rc1 : RemoteCluster) (st1 : PresenceState)
    (hfind : st.remoteClusters.find? (fun rc => rc.name == name) = some rc0)
    (hget : GetRemoteCluster st name = some (rc1, st1)) :
    (rc1.connectionStatus = ConnectionStatus.online ↔
       tunnelsForCluster st.tunnels name ≠ [])
    ∧ (tunnelsForCluster st.tunnels name = [] →
        rc1.connectionStatus = ConnectionStatus.offline
        ∧ rc1.lastHeartbeat = rc0.lastHeartbeat) := by
  have hname : rc0.name = name := by
    have h := List.find?_some hfind
    simpa using h
  obtain ⟨hrc1, -⟩ := getRemoteCluster_ok_elim st name rc0 rc1 st1 hfind hget
  have hstatus : rc1.connectionStatus
      = (if (tunnelsForCluster st.tunnels name).isEmpty
          then ConnectionStatus.offline else ConnectionStatus.online) := by
    rw [hrc1]
    unfold refreshRemoteCluster
    rw [hname]
  constructor
  · rw [hstatus]
    cases hemp : (tunnelsForCluster st.tunnels name).isEmpty with
    | true =>
      simp only [if_true]
      rw [List.isEmpty_iff] at hemp
      simp [hemp]
    | false =>
      simp only [Bool.false_eq_true, if_false]
      rw [List.isEmpty_eq_false_iff_exists_mem] at hemp
      obtain ⟨x, hx⟩ := hemp
      constructor
      · intro _ hnil
        rw [hnil] at hx
        cases hx
      · intro _
        trivial
  · intro hemp
    constructor
    · rw [hstatus, hemp]
      simp
    · rw [hrc1, refreshRemoteCluster_lastHeartbeat, hname, hemp]
      simp [candidateMax]

theorem upsertRole_ok_elim (st : List PresenceEntry) (role : String)
    (res : ServerResource) (ttl now : Nat) (st' : List PresenceEntry)
    (lease' : Option KeepAliveLease)
    (h : UpsertRole st role res ttl now = .ok (st', lease')) :
    st' = entryOf res ttl now
      :: st.filter (fun x => !(entryKey res.ns res.kind res.name x)) := by
  unfold UpsertRole at h
  split at h
  next => exact absurd h (by simp)
  next k hk =>
    split at h
    next heq =>
      simp only [Except.ok.injEq, Prod.mk.injEq] at h
      exact h.1.symm
    next => exact absurd h (by simp)

theorem entryAlive_entryOf (res : ServerResource) (ttl now : Nat) :
    entryAlive now (entryOf res ttl now) = true := by
  unfold entryAlive entryOf
  by_cases h : 0 < ttl
  · simp [h]
  · simp [h]

/-- C3: the role upsert fails with a validation error exactly when the
submitted resource's declared kind differs from the kind the caller's
asserted role must submit (writing nothing, since the error carries no
new state); when the declared kind matches the asserted role, the
upsert succeeds. -/
theorem upsertRole_validation :
    (∀ (st : List PresenceEntry) (role : String) (res : ServerResource) (ttl now : Nat),
       kindForRole role ≠ some res.kind →
       ∃ msg, UpsertRole st role res ttl now = .error msg) ∧
    (∀ (st : List PresenceEntry) (role : String) (res : ServerResource) (ttl now : Nat),
       kindForRole role = some res.kind →
       ∃ out, UpsertRole st role res ttl now = .ok out) := by
  constructor
  · intro st role res ttl now hne
    unfold UpsertRole
    cases hk : kindForRole role with
    | none => exact ⟨_, rfl⟩
    | some k =>
      have hkk : ¬ res.kind = k := by
        intro hc
        apply hne
        rw [hk, hc]
      exact ⟨"role does not match submitted resource kind", by simp [hkk]⟩
  · intro st role res ttl now heq
    refine ⟨(entryOf res ttl now
        :: st.filter (fun x => !(entryKey res.ns res.kind res.name x)),
      if 0 < ttl then some ⟨res.ns, res.kind, res.name, now + ttl⟩ else none), ?_⟩
    unfold UpsertRole
    rw [heq]
    simp

/-- C4: after a successful `UpsertRole` with kind K into the empty
registry, `GetByKind K N` returns exactly the stored entry while every
other kind's getter returns nothing; a second upsert with the same
(namespace, kind, name) replaces the entry rather than duplicating it;
and any upsert preserves the at-most-one-entry-per-(namespace, kind,
name) invariant. -/
theorem upsertRole_getByKind (role : String) (res : ServerResource) (ttl now : Nat)
    (st1 : List PresenceEntry) (lease1 : Option KeepAliveLease)
    (h1 : UpsertRole [] role res ttl now = .ok (st1, lease1)) :
    GetByKind st1 res.kind res.ns now = [entryOf res ttl now]
    ∧ (∀ (k ns2 : String), k ≠ res.kind → GetByKind st1 k ns2 now = [])
    ∧ (∀ (role2 : String) (res2 : ServerResource) (ttl2 now2 : Nat)
         (st2 : List PresenceEntry) (lease2 : Option KeepAliveLease),
         res2.ns = res.ns → res2.kind = res.kind → res2.name = res.name →
         UpsertRole st1 role2 res2 ttl2 now2 = .ok (st2, lease2) →
         st2 = [entryOf res2 ttl2 now2])
    ∧ (∀ (st : List PresenceEntry) (role3 : String) (res3 : ServerResource)
         (ttl3 now3 : Nat) (st3 : List PresenceEntry) (lease3 : Option KeepAliveLease),
         UpsertRole st role3 res3 ttl3 now3 = .ok (st3, lease3) →
         ∀ (ns4 k4 n4 : String), (st.filter (entryKey ns4 k4 n4)).length ≤ 1 →
           (st3.filter (entryKey ns4 k4 n4)).length ≤ 1) := by
  have hst1 : st1 = [entryOf res ttl now] := by
    have h := upsertRole_ok_elim [] role res ttl now st1 lease1 h1
    simpa using h
  refine ⟨?_, ?_, ?_, ?_⟩
  · rw [hst1]
    unfold GetByKind
    have h1k : ((entryOf res ttl now).kind == res.kind) = true := by
      simp [entryOf]
    have h1n : ((entryOf res ttl now).ns == res.ns) = true := by
      simp [entryOf]
    simp [h1k, h1n, entryAlive_entryOf res ttl now]
  · intro k ns2 hk
    rw [hst1]
    unfold GetByKind
    have : ((entryOf res ttl now).kind == k) = false := by
      simp [entryOf]
      exact fun hc => hk hc.symm
    simp [this]
  · intro role2 res2 ttl2 now2 st2 lease2 hns hkind hn h2
    have h := upsertRole_ok_elim st1 role2 res2 ttl2 now2 st2 lease2 h2
    rw [hst1] at h
    have hkey : entryKey res2.ns res2.kind res2.name (entryOf res ttl now) = true := by
      simp [entryKey, entryOf, hns, hkind, hn]
    rw [h]
    simp [hkey]
  · intro st role3 res3 ttl3 now3 st3 lease3 h3 ns4 k4 n4 hinv
    have h := upsertRole_ok_elim st role3 res3 ttl3 now3 st3 lease3 h3
    rw [h, List.filter_cons]
    by_cases hk4 : entryKey ns4 k4 n4 (entryOf res3 ttl3 now3) = true
    · rw [if_pos hk4]
      have hfields : res3.ns = ns4 ∧ res3.kind = k4 ∧ res3.name = n4 := by
        simpa [entryKey, entryOf, and_assoc] using hk4
      have hnil : ((st.filter (fun x => !(entryKey res3.ns res3.kind res3.name x))).filter
          (entryKey ns4 k4 n4)) = [] := by
        rw [List.filter_eq_nil_iff]
        intro a ha
        rw [List.mem_filter] at ha
        obtain ⟨-, hna⟩ := ha
        rw [hfields.1, hfields.2.1, hfields.2.2] at hna
        simp at hna
        simp [hna]
      rw [hnil]
      simp
    · rw [if_neg hk4]
      calc ((st.filter (fun x => !(entryKey res3.ns res3.kind res3.name x))).filter
              (entryKey ns4 k4 n4)).length
          ≤ (st.filter (entryKey ns4 k4 n4)).length :=
            List.Sublist.length_le
              (List.Sublist.filter _ (List.filter_sublist st))
        _ ≤ 1 := hinv

/- ===================== Witnesses ===================== -/

/-- Witness for C1 at the state of `TestRemoteClusterStatus`: the read
watermark is 2 and a read after deleting the maximal connection keeps
it at 2. -/
theorem remoteCluster_watermark_monotone_witness :
    demoRC1.lastHeartbeat
        = max demoRC0.lastHeartbeat
            (candidateMax (tunnelsForCluster demoPresence.tunnels "rc"))
      ∧ demoRC1.lastHeartbeat = demoRC1.lastHeartbeat := by
  have h := remoteCluster_watermark_monotone demoPresence "rc" demoRC0 demoRC1
      demoPresence1 rfl rfl
  exact ⟨h.1, h.2.2 "rc" "conn-2" demoRC1 ⟨[demoRC1], [demoTunnel1]⟩ rfl⟩

/-- Witness for C2 at a cluster with zero tunnel connections: status
Offline, watermark unchanged (zero). -/
theorem remoteCluster_status_iff_witness :
    demoRC0.connectionStatus = ConnectionStatus.offline
      ∧ demoRC0.lastHeartbeat = demoRC0.lastHeartbeat := by
  have h := remoteCluster_status_iff ⟨[demoRC0], []⟩ "rc" demoRC0 demoRC0
      ⟨[demoRC0], []⟩ rfl rfl
  exact h.2 rfl

/-- Witness for C3: the unknown role fails validation and the matching
node role succeeds, as in `TestUpsertServer`. -/
theorem upsertRole_validation_witness :
    (∃ msg, UpsertRole [] "unknown" demoResource 0 0 = .error msg)
      ∧ (∃ out, UpsertRole [] "node" demoResource 0 0 = .ok out) :=
  ⟨upsertRole_validation.1 [] "unknown" demoResource 0 0 (by decide),
   upsertRole_validation.2 [] "node" demoResource 0 0 (by decide)⟩

/-- Witness for C4: after upserting the demo node resource, the node
getter returns exactly the stored entry and the proxy getter returns
nothing. -/
theorem upsertRole_getByKind_witness :
    GetByKind [entryOf demoResource 0 0] "node" "default" 0 = [entryOf demoResource 0 0]
      ∧ GetByKind [entryOf demoResource 0 0] "proxy" "default" 0 = [] := by
  have h := upsertRole_getByKind "node" demoResource 0 0
      [entryOf demoResource 0 0] none rfl
  exact ⟨h.1, h.2.1 "proxy" "default" (by decide)⟩

/-- Witness for C5: advancing the clock past the TTL makes the demo
session invisible to get and list. -/
theorem session_inactivity_expires_witness :
    GetSession 601 [demoSession] "default" demoSession.id = .error .notFound
      ∧ demoSession ∉ GetSessions 601 [demoSession] "default" :=
  session_inactivity_expires 601 [demoSession] "default" demoSession
    (by decide) (by decide) (by decide) (by decide)

/-- Witness for C6: a terminal-params-only update changes only the
terminal parameters of the demo session, and an update with no optional
fields leaves the store unchanged. -/
theorem updateSession_partial_frame_witness :
    (applyUpdate demoSession demoReqTP).terminalParams = ⟨101, 101⟩
      ∧ (applyUpdate demoSession demoReqTP).parties = demoSession.parties
      ∧ ([demoSession] : List Session) = [demoSession] := by
  have h1 := updateSession_partial_frame.1 demoSession demoReqTP ⟨101, 101⟩ rfl rfl
  have h2 := updateSession_partial_frame.2 0 [demoSession] [demoSession]
      demoReqNone rfl rfl rfl
  exact ⟨h1.1, h1.2.1, h2⟩

/-- Witness for C7: a valid id with trailing characters fails Check, and
a malformed id makes `GetSession` fail with a validation error. -/
theorem idCheck_rejects_malformed_witness :
    IDCheck (demoID ++ "extra") = false
      ∧ GetSession 0 [] "default" "garbage" = .error .badParameter :=
  ⟨idCheck_rejects_malformed.2.2.1 demoID "extra" (by decide) (by decide),
   idCheck_rejects_malformed.2.2.2 0 [] "default" "garbage" (by decide)⟩

/-- Witness for C8: the demo session round-trips through create, get and
list. -/
theorem createSession_roundtrip_witness :
    GetSession 0 [demoSession] demoSession.ns demoSession.id = .ok demoSession
      ∧ GetSessions 0 [demoSession] demoSession.ns = [demoSession] :=
  createSession_roundtrip 0 demoSession [demoSession] (by decide) rfl rfl rfl

/-- Witness for C9: removing the second demo party reports success and
leaves exactly the first party, as in `TestPartiesCRUD`. -/
theorem removeParty_lifecycle_witness :
    (RemoveParty demoSessionP12 "party-2").2 = true
      ∧ demoSessionP1.parties = [demoParty1] :=
  removeParty_lifecycle.2.2 0 [demoSession] [demoSessionP12] [demoSessionP1]
    demoReqP12 demoReqP1 demoSessionP12 demoSessionP1 demoParty1 demoParty2
    (by decide) rfl rfl rfl rfl rfl rfl rfl rfl
